import Mathlib

/-!
Verification of the remote-GraphQL validation core of `graphql/schema/remote.go`
(package `schema`): a shallow embedding of the introspection data model, the
type expander, and `validateRemoteGraphql`, with theorems settling the frozen
claims about the specification.

Conventions of the embedding:
* Go pointers that may be `nil` become `Option`; a Go `nil`-pointer
  dereference (a runtime panic, not a returned error) is modelled by the
  distinguished error constructors `RemoteError.panicSelection` and
  `RemoteError.panicNilType`, so that panics stay observably different from
  the `errors.Errorf` values the code returns.
* Go maps become association lists with overwrite-on-insert (`setAssoc`);
  iteration order of a Go map is unspecified, the model fixes insertion
  order.  No settled claim depends on a map iteration order.
* The HTTP introspection fetch is out of scope: `validateRemoteGraphql` is
  modelled from the point where `introspectRemoteSchema` has already
  succeeded, taking the decoded `IntrospectedSchema` as an argument.
* The local-schema side (`ast.Definition`, `ast.FieldDefinition`, ...) comes
  from the `gqlparser/ast` dependency.  The validation code consumes a local
  `ast.Type` only through its canonical `String()` rendering, so local types
  are modelled directly as their canonical rendering (a `String`).
-/

deriving instance DecidableEq for Except

namespace Dgraph

/-- `GqlType` from remote.go: `Kind`, `Name`, `OfType *GqlType`.
`leaf` is a value whose `OfType` pointer is nil, `node` one whose pointer is
non-nil. -/
inductive GqlType where
  | leaf (kind : String) (tname : String)
  | node (kind : String) (tname : String) (ofType : GqlType)
deriving DecidableEq, Repr

/-- The `Kind` field of a `GqlType` value. -/
def GqlType.kind : GqlType → String
  | .leaf k _ => k
  | .node k _ _ => k

/-- The `Name` field of a `GqlType` value. -/
def GqlType.name : GqlType → String
  | .leaf _ n => n
  | .node _ n _ => n

/-- `func (t *GqlType) String() string` on a non-nil receiver: LIST renders as
`[OfType]`, NON_NULL as `OfType!`, every other kind as the name.  A nil
`OfType` under a wrapper renders as the empty string (the Go method returns ""
on a nil receiver). -/
def GqlType.str : GqlType → String
  | .leaf k n => if k = "LIST" then "[]" else if k = "NON_NULL" then "!" else n
  | .node k n inner =>
    if k = "LIST" then "[" ++ inner.str ++ "]"
    else if k = "NON_NULL" then inner.str ++ "!"
    else n

/-- `t.String()` on a possibly-nil `*GqlType` receiver: nil renders as "". -/
def strOpt : Option GqlType → String
  | none => ""
  | some t => t.str

/-- `func (t *GqlType) NamedType() string`: return the name at the shallowest
level of the `ofType` chain that has a non-empty name.  When every level's
name is empty the Go code calls `NamedType` on the nil pointer at the end of
the chain — a panic, modelled as `none`. -/
def GqlType.namedType? : GqlType → Option String
  | .leaf _ n => if n ≠ "" then some n else none
  | .node _ n inner => if n ≠ "" then some n else inner.namedType?

/-- The list of `Name` fields along the `ofType` chain, outermost first
(a statement-level observation used to phrase claims about `NamedType`). -/
def GqlType.nameChain : GqlType → List String
  | .leaf _ n => [n]
  | .node _ n inner => n :: inner.nameChain

/-- C7: the canonical string rendering of a type reference reproduces GraphQL
type syntax for every nesting of Named, List and NonNull: a named type (any
kind other than LIST/NON_NULL) renders as its name, a list as `[Inner]`, a
non-null as `Inner!`; in particular `NonNull(List(NonNull(Named("Foo"))))`
renders exactly as `[Foo!]!`. -/
theorem C7_canonical_string_rendering :
    (∀ k n, k ≠ "LIST" → k ≠ "NON_NULL" → GqlType.str (.leaf k n) = n) ∧
    (∀ k n inner, k ≠ "LIST" → k ≠ "NON_NULL" →
      GqlType.str (.node k n inner) = n) ∧
    (∀ n inner, GqlType.str (.node "LIST" n inner) = "[" ++ inner.str ++ "]") ∧
    (∀ n inner, GqlType.str (.node "NON_NULL" n inner) = inner.str ++ "!") ∧
    GqlType.str
      (.node "NON_NULL" ""
        (.node "LIST" ""
          (.node "NON_NULL" "" (.leaf "OBJECT" "Foo")))) = "[Foo!]!" := by
  refine ⟨?_, ?_, ?_, ?_, rfl⟩
  · intro k n h1 h2
    simp [GqlType.str, h1, h2]
  · intro k n inner h1 h2
    simp [GqlType.str, h1, h2]
  · intro n inner
    simp [GqlType.str]
  · intro n inner
    simp [GqlType.str]

/-- Witness for C7 at concrete inputs. -/
theorem C7_canonical_string_rendering_witness :
    GqlType.str (.leaf "OBJECT" "Post") = "Post" ∧
    GqlType.str (.node "LIST" "" (.leaf "OBJECT" "Post")) = "[Post]" := by
  refine ⟨C7_canonical_string_rendering.1 "OBJECT" "Post" (by decide) (by decide), ?_⟩
  have h := C7_canonical_string_rendering.2.2.1 "" (GqlType.leaf "OBJECT" "Post")
  exact h.trans (by decide)

/-- C10: `GqlType.NamedType` returns the name at the shallowest level of the
`ofType` chain carrying a non-empty name; when every level's name is empty
(and the chain necessarily ends in a nil pointer) it dereferences nil — a
crash modelled as `none` — rather than returning a value or error. -/
theorem C10_namedType_shallowest :
    ∀ t : GqlType,
      t.namedType? = t.nameChain.find? (fun s => s ≠ "") ∧
      (t.namedType? = none ↔ ∀ s ∈ t.nameChain, s = "") := by
  intro t
  induction t with
  | leaf k n =>
    constructor
    · by_cases h : n = "" <;> simp [GqlType.namedType?, GqlType.nameChain, h]
    · by_cases h : n = "" <;> simp [GqlType.namedType?, GqlType.nameChain, h]
  | node k n inner ih =>
    constructor
    · by_cases h : n = ""
      · simp [GqlType.namedType?, GqlType.nameChain, h, ih.1]
      · simp [GqlType.namedType?, GqlType.nameChain, h]
    · by_cases h : n = ""
      · simp [GqlType.namedType?, GqlType.nameChain, h, ih.2]
      · simp [GqlType.namedType?, GqlType.nameChain, h]

/-- `Args` from remote.go: an introspected argument (or input value).  The
opaque `DefaultValue interface{}` is modelled as an optional string. -/
structure Args where
  aname : String
  type : Option GqlType
  defaultValue : Option String
deriving DecidableEq, Repr

/-- `GqlField` from remote.go.  `DeprecationReason interface{}` is modelled
as an optional string. -/
structure GqlField where
  fname : String
  args : List Args
  type : Option GqlType
  isDeprecated : Bool
  deprecationReason : Option String
deriving DecidableEq, Repr

/-- `Types` from remote.go: one introspected type definition.  The
`Interfaces`, `EnumValues` and `PossibleTypes` fields are opaque
(`interface{}`) and never read by the validation code, so they are omitted. -/
structure Types where
  kind : String
  tname : String
  fields : List GqlField
  inputFields : List GqlField
deriving DecidableEq, Repr

/-- `IntrospectionQueryType` from remote.go. -/
structure IntrospectionQueryType where
  qname : String
deriving DecidableEq, Repr

/-- `IntrospectionSchema` from remote.go.  `Directives` are never read by the
validation code and are omitted. -/
structure IntrospectionSchema where
  queryType : IntrospectionQueryType
  mutationType : IntrospectionQueryType
  subscriptionType : IntrospectionQueryType
  types : List Types
deriving DecidableEq, Repr

/-- `Data` from remote.go (the `"data"` envelope). -/
structure Data where
  schema : IntrospectionSchema
deriving DecidableEq, Repr

/-- `IntrospectedSchema` from remote.go. -/
structure IntrospectedSchema where
  data : Data
deriving DecidableEq, Repr

/-! ### Go maps as association lists -/

/-- `m[k] = v` on a Go map: overwrite the binding if the key is present,
append it otherwise. -/
def setAssoc {α : Type} (m : List (String × α)) (k : String) (v : α) :
    List (String × α) :=
  if m.any (fun p => p.1 = k) then
    m.map (fun p => if p.1 = k then (k, v) else p)
  else m ++ [(k, v)]

/-- `v, ok := m[k]` on a Go map. -/
def lookupAssoc {α : Type} (m : List (String × α)) (k : String) : Option α :=
  (m.find? (fun p => p.1 = k)).map (fun p => p.2)

/-! ### The local (gqlparser ast) side

The validation code consumes a local `ast.Type` only via its canonical
`String()` rendering, so local types are modelled as that rendering. -/

/-- `ast.ArgumentDefinition`: an argument declared on the local parent field.
`type` is the canonical rendering of its `ast.Type`. -/
structure ArgumentDefinition where
  aname : String
  type : String
deriving DecidableEq, Repr

/-- `ast.FieldDefinition`: a field declared in the local schema.  `type` is
the canonical rendering of its `ast.Type`. -/
structure FieldDefinition where
  fname : String
  arguments : List ArgumentDefinition
  type : String
deriving DecidableEq, Repr

/-- `ast.Argument`: an argument supplied on the given query field; `value`
is the rendering of its `ast.Value` (for a variable, `"$name"`). -/
structure Argument where
  aname : String
  value : String
deriving DecidableEq, Repr

/-- `ast.Field`: the top-level selection of the given operation. -/
structure AstField where
  fname : String
  arguments : List Argument
deriving DecidableEq, Repr

/-- `ast.Selection`: a selection is a field, a fragment spread or an inline
fragment; only a field satisfies the type assertion in the source. -/
inductive Selection where
  | field (f : AstField)
  | fragmentSpread (sname : String)
  | inlineFragment
deriving DecidableEq, Repr

/-- `ast.OperationDefinition`: operation kind (`"query"`/`"mutation"`/...)
and its selection set. -/
structure OperationDefinition where
  operation : String
  selectionSet : List Selection
deriving DecidableEq, Repr

/-- `ast.Definition`: a local type definition (only the members the
validation code reads). -/
structure Definition where
  dname : String
  fields : List FieldDefinition
deriving DecidableEq, Repr

/-- `ast.Schema`: local type name → definition (`metadata.schema.Types`). -/
structure Schema where
  types : List (String × Definition)
deriving DecidableEq, Repr

/-- `remoteGraphqlMetadata` from remote.go; the `url` field is consumed only
by the HTTP fetch, which is outside the modelled scope. -/
structure remoteGraphqlMetadata where
  parentType : Definition
  parentField : FieldDefinition
  graphqlOpDef : OperationDefinition
  schema : Schema
deriving DecidableEq, Repr

/-- `FieldList.ForName` from the gqlparser ast package: first field with the
given name. -/
def forName (fields : List FieldDefinition) (n : String) :
    Option FieldDefinition :=
  fields.find? (fun f => f.fname = n)

/-- The errors of remote.go, one constructor per `errors.Errorf` site, with
the format arguments in source order.  The two `panic*` constructors stand
for Go runtime panics (not returned errors): `panicSelection` for the
unguarded `SelectionSet[0].(*ast.Field)` access, `panicNilType` for a nil
`*GqlType` dereference. -/
inductive RemoteError where
  | unsupportedOperation (op : String)
  | queryNotPresent (op qname : String)
  | returnTypeMismatch (op qname expected got : String)
  | argNotPresent (op qname argName : String)
  | missingVariable (op qname varVal : String)
  | argTypeMismatch (op qname varVal expected got : String)
  | requiredArgMissing (op qname argName : String)
  | typeNotFound (tname : String)
  | localTypeNotFound (tname : String)
  | localFieldNotFound (fieldName typeName : String)
  | fieldTypeMismatch (fieldName expected got typeName : String)
  | panicSelection
  | panicNilType
deriving DecidableEq, Repr

/-- Modelled from the spec: the scalar set is the builtin scalar names
{Int, Float, String, Boolean, ID} together with every custom scalar name
known to the local schema.  (The package-level map `graphqlScalarType` that
remote.go reads is declared outside the provided source; only its key set is
consulted, via `_, ok := graphqlScalarType[...]`.) -/
def graphqlScalarType (customScalars : List String) : List String :=
  ["Int", "Float", "String", "Boolean", "ID"] ++ customScalars

/-- Modelled from the spec: `returnType = string(x.TypeKey("graphql-return"))`,
a reserved key built with a delimiter users cannot write, hence distinct from
any user-written argument name.  `x.TypeKey` is declared outside the provided
source; the exact string does not matter to any claim, only that it is a
fixed key. -/
def returnTypeKey : String := "dgraph.type.graphql-return"

/-! ### The type expander (`expandArgParams`, `expandArgRecursively`,
`expandArgs`)

`expandArgRecursively` in the source is a depth-first traversal whose state
(`expandedTypes`, `typesToFields`) is threaded by pointer.  Here the same
traversal is written as a single worklist recursion `expandLoop` on an
explicit stack of pending type names: popping a name performs exactly the
body of `expandArgRecursively` for that name, with the names it would recurse
into pushed in front of the remaining stack, so visit order, state evolution
and the first returned error coincide with the source's recursion.  (Only the
relative order of a nil-`NamedType` panic against errors from earlier
siblings differs, since the model collects a popped type's recursion targets
eagerly; no claim involves that ordering.) -/

/-- The mutable expansion state of `expandArgParams` (the
`introspectedSchema` member is passed as a function argument instead). -/
structure expandArgParams where
  expandedTypes : List String
  typesToFields : List (String × List GqlField)
deriving DecidableEq, Repr

/-- The recursion targets contributed by the `inputType.Fields` loop of
`expandArgRecursively`: a field is recursed into iff its type's **top-level**
`Name` is not a scalar key, and the target is `field.Type.NamedType()`.
A nil `field.Type` (read as `field.Type.Name`) or an all-empty name chain
(`NamedType` on nil) panics. -/
def fieldChildren (scalars : List String) :
    List GqlField → Except RemoteError (List String)
  | [] => .ok []
  | f :: rest =>
    match f.type with
    | none => .error .panicNilType
    | some ft =>
      if scalars.contains ft.name then fieldChildren scalars rest
      else
        match ft.namedType? with
        | none => .error .panicNilType
        | some n =>
          match fieldChildren scalars rest with
          | .error e => .error e
          | .ok ns => .ok (n :: ns)

/-- The recursion targets contributed by the `inputType.InputFields` loop of
`expandArgRecursively`: an input field is recursed into iff
`field.Type.NamedType()` (the **underlying** named type) is not a scalar
key. -/
def inputChildren (scalars : List String) :
    List GqlField → Except RemoteError (List String)
  | [] => .ok []
  | f :: rest =>
    match f.type with
    | none => .error .panicNilType
    | some ft =>
      match ft.namedType? with
      | none => .error .panicNilType
      | some n =>
        if scalars.contains n then inputChildren scalars rest
        else
          match inputChildren scalars rest with
          | .error e => .error e
          | .ok ns => .ok (n :: ns)

/-- All recursion targets of one matching type definition, fields first, then
input fields — the order the source's two loops run in. -/
def typeChildren (scalars : List String) (t : Types) :
    Except RemoteError (List String) :=
  match fieldChildren scalars t.fields with
  | .error e => .error e
  | .ok a =>
    match inputChildren scalars t.inputFields with
    | .error e => .error e
    | .ok b => .ok (a ++ b)

/-- Recursion targets of all type definitions matching the popped name (the
source's loop runs over every `inputType` with `inputType.Name == arg`). -/
def childrenMany (scalars : List String) :
    List Types → Except RemoteError (List String)
  | [] => .ok []
  | t :: ts =>
    match typeChildren scalars t with
    | .error e => .error e
    | .ok a =>
      match childrenMany scalars ts with
      | .error e => .error e
      | .ok b => .ok (a ++ b)

/-- `param.typesToFields[inputType.Name] = inputType.Fields` followed by the
append of `inputType.InputFields`: net effect on the map is one binding
`name ↦ fields ++ inputFields`. -/
def recordType (s : expandArgParams) (t : Types) : expandArgParams :=
  { s with typesToFields := setAssoc s.typesToFields t.tname (t.fields ++ t.inputFields) }

/-- `recordType` over every matching type definition, in source order. -/
def recordTypes (ts : List Types) (s : expandArgParams) : expandArgParams :=
  ts.foldl recordType s

theorem recordTypes_expandedTypes (ts : List Types) (s : expandArgParams) :
    (recordTypes ts s).expandedTypes = s.expandedTypes := by
  induction ts generalizing s with
  | nil => rfl
  | cons t ts ih =>
    show (recordTypes ts (recordType s t)).expandedTypes = s.expandedTypes
    rw [ih]
    rfl

theorem mem_names_of_filter_not_empty {l : List Types} {arg : String}
    (h : ¬ (l.filter (fun t => t.tname = arg)).isEmpty = true) :
    arg ∈ l.map Types.tname := by
  have h' : l.filter (fun t => t.tname = arg) ≠ [] := by
    intro hnil
    rw [hnil] at h
    exact h rfl
  obtain ⟨t, htmem⟩ := List.exists_mem_of_ne_nil _ h'
  have hm := List.mem_filter.mp htmem
  refine List.mem_map.mpr ⟨t, hm.1, ?_⟩
  have := hm.2
  simpa using this

/-- The worklist form of `expandArgRecursively`: pop a pending name; a name
already in `expandedTypes` returns to the caller at once (the guard at the
top of `expandArgRecursively`); otherwise the name is marked visited
**before** anything else, every matching type definition is recorded, and the
names the source would recurse into are processed, depth-first, before the
rest of the stack.  Absence of any matching type definition is the
`"Unable to find the type %s on the remote schema"` error. -/
def expandLoop (snap : IntrospectedSchema) (scalars : List String)
    (stack : List String) (st : expandArgParams) :
    Except RemoteError expandArgParams :=
  match stack with
  | [] => .ok st
  | arg :: rest =>
    if h1 : st.expandedTypes.contains arg then
      expandLoop snap scalars rest st
    else
      let st1 : expandArgParams := { st with expandedTypes := arg :: st.expandedTypes }
      let matching := snap.data.schema.types.filter (fun t => t.tname = arg)
      if h2 : matching.isEmpty then .error (.typeNotFound arg)
      else
        match childrenMany scalars matching with
        | .error e => .error e
        | .ok children =>
          expandLoop snap scalars (children ++ rest) (recordTypes matching st1)
termination_by
  (((snap.data.schema.types.map Types.tname).toFinset \ st.expandedTypes.toFinset).card,
   stack.length)
decreasing_by
  · apply Prod.Lex.right
    simp
  · apply Prod.Lex.left
    rw [recordTypes_expandedTypes]
    have harg : arg ∈ (snap.data.schema.types.map Types.tname).toFinset :=
      List.mem_toFinset.mpr (mem_names_of_filter_not_empty h2)
    have hnotv : arg ∉ st.expandedTypes.toFinset := by
      rw [List.mem_toFinset]
      intro hmem
      exact h1 (List.elem_eq_true_of_mem hmem)
    apply Finset.card_lt_card
    rw [Finset.ssubset_iff_of_subset
      (Finset.sdiff_subset_sdiff (Finset.Subset.refl _) (by simp [Finset.subset_insert]))]
    exact ⟨arg, Finset.mem_sdiff.mpr ⟨harg, hnotv⟩, by simp⟩

theorem expandLoop_nil (snap : IntrospectedSchema) (scalars : List String)
    (st : expandArgParams) : expandLoop snap scalars [] st = .ok st := by
  rw [expandLoop]

theorem expandLoop_cons_mem (snap : IntrospectedSchema) (scalars : List String)
    (arg : String) (rest : List String) (st : expandArgParams)
    (h : arg ∈ st.expandedTypes) :
    expandLoop snap scalars (arg :: rest) st = expandLoop snap scalars rest st := by
  rw [expandLoop]
  simp [h]

theorem expandLoop_cons_notFound (snap : IntrospectedSchema)
    (scalars : List String) (arg : String) (rest : List String)
    (st : expandArgParams)
    (h1 : arg ∉ st.expandedTypes)
    (h2 : ∀ t ∈ snap.data.schema.types, t.tname ≠ arg) :
    expandLoop snap scalars (arg :: rest) st = .error (.typeNotFound arg) := by
  rw [expandLoop]
  simp [h1, h2]
  intro x hx heq
  exact absurd heq (h2 x hx)

theorem expandLoop_cons_step (snap : IntrospectedSchema)
    (scalars : List String) (arg : String) (rest : List String)
    (st : expandArgParams) (children : List String)
    (h1 : arg ∉ st.expandedTypes)
    (h2 : ∃ t ∈ snap.data.schema.types, t.tname = arg)
    (h3 : childrenMany scalars (snap.data.schema.types.filter (fun t => t.tname = arg)) =
      .ok children) :
    expandLoop snap scalars (arg :: rest) st =
      expandLoop snap scalars (children ++ rest)
        (recordTypes (snap.data.schema.types.filter (fun t => t.tname = arg))
          { st with expandedTypes := arg :: st.expandedTypes }) := by
  rw [expandLoop]
  simp [h1, h3]
  intro hall
  obtain ⟨t, htmem, hteq⟩ := h2
  exact absurd hteq (hall t htmem)

theorem expandLoop_cons_childErr (snap : IntrospectedSchema)
    (scalars : List String) (arg : String) (rest : List String)
    (st : expandArgParams) (e : RemoteError)
    (h1 : arg ∉ st.expandedTypes)
    (h2 : ∃ t ∈ snap.data.schema.types, t.tname = arg)
    (h3 : childrenMany scalars (snap.data.schema.types.filter (fun t => t.tname = arg)) =
      .error e) :
    expandLoop snap scalars (arg :: rest) st = .error e := by
  rw [expandLoop]
  simp [h1, h3]
  intro hall
  obtain ⟨t, htmem, hteq⟩ := h2
  exact absurd hteq (hall t htmem)

theorem filter_isEmpty_iff (l : List Types) (arg : String) :
    (l.filter (fun t => t.tname = arg)).isEmpty = true ↔
      ∀ t ∈ l, t.tname ≠ arg := by
  rw [List.isEmpty_iff, List.filter_eq_nil_iff]
  simp

theorem filter_not_isEmpty_iff (l : List Types) (arg : String) :
    ¬ (l.filter (fun t => t.tname = arg)).isEmpty = true ↔
      ∃ t ∈ l, t.tname = arg := by
  rw [filter_isEmpty_iff]
  push_neg
  rfl

/-- Every successful run of the worklist leaves `expandedTypes` duplicate
free if it started duplicate free: a name is only prepended under the guard
that it is not yet present. -/
theorem expandLoop_nodup (snap : IntrospectedSchema) (scalars : List String)
    (stack : List String) (st : expandArgParams)
    (hnd : st.expandedTypes.Nodup) (st' : expandArgParams)
    (hok : expandLoop snap scalars stack st = .ok st') :
    st'.expandedTypes.Nodup := by
  induction stack, st using expandLoop.induct snap scalars with
  | case1 st =>
    rw [expandLoop_nil] at hok
    cases hok
    exact hnd
  | case2 st arg rest h1 ih =>
    rw [expandLoop_cons_mem _ _ _ _ _ (by simpa using h1)] at hok
    exact ih hnd hok
  | case3 st arg rest h1 m h2 =>
    have h2' : (snap.data.schema.types.filter (fun t => t.tname = arg)).isEmpty = true := h2
    rw [expandLoop_cons_notFound _ _ _ _ _ (by simpa using h1)
      ((filter_isEmpty_iff _ _).mp h2')] at hok
    cases hok
  | case4 st arg rest h1 m h2 e h3 =>
    have h2' : ¬ (snap.data.schema.types.filter (fun t => t.tname = arg)).isEmpty = true := h2
    have h3' : childrenMany scalars
        (snap.data.schema.types.filter (fun t => t.tname = arg)) = .error e := h3
    rw [expandLoop_cons_childErr _ _ _ _ _ e (by simpa using h1)
      ((filter_not_isEmpty_iff _ _).mp h2') h3'] at hok
    cases hok
  | case5 st arg rest h1 st1 m h2 children h3 ih =>
    have h2' : ¬ (snap.data.schema.types.filter (fun t => t.tname = arg)).isEmpty = true := h2
    have h3' : childrenMany scalars
        (snap.data.schema.types.filter (fun t => t.tname = arg)) = .ok children := h3
    rw [expandLoop_cons_step _ _ _ _ _ children (by simpa using h1)
      ((filter_not_isEmpty_iff _ _).mp h2') h3'] at hok
    refine ih ?_ hok
    rw [recordTypes_expandedTypes]
    refine List.nodup_cons.mpr ⟨?_, hnd⟩
    simpa using h1

/-- `expandArgRecursively(arg, param)`: run the depth-first expansion of one
name against the snapshot, threading the state. -/
def expandArgRecursively (scalars : List String) (arg : String)
    (snap : IntrospectedSchema) (st : expandArgParams) :
    Except RemoteError expandArgParams :=
  expandLoop snap scalars [arg] st

/-- The seed loop of `expandArgs`: for every entry of `argToVal`, skip it if
`Type.NamedType()` is a scalar key, else expand it recursively, threading one
shared state through all seeds. -/
def expandSeeds (scalars : List String) (snap : IntrospectedSchema) :
    List (String × Args) → expandArgParams → Except RemoteError expandArgParams
  | [], st => .ok st
  | (_, a) :: rest, st =>
    match a.type with
    | none => .error .panicNilType
    | some t =>
      match t.namedType? with
      | none => .error .panicNilType
      | some n =>
        if scalars.contains n then expandSeeds scalars snap rest st
        else
          match expandArgRecursively scalars n snap st with
          | .error e => .error e
          | .ok st' => expandSeeds scalars snap rest st'

/-- `expandArgs(argToVal, introspectedSchema)`: expand every non-scalar seed
starting from the empty state and return the flattened
`typeName ↦ fields` map. -/
def expandArgs (scalars : List String) (argToVal : List (String × Args))
    (introspectedSchema : IntrospectedSchema) :
    Except RemoteError (List (String × List GqlField)) :=
  match expandSeeds scalars introspectedSchema argToVal ⟨[], []⟩ with
  | .error e => .error e
  | .ok st => .ok st.typesToFields

/-! ### The compatibility checker (`validateRemoteGraphql` and helpers) -/

/-- `getFieldArgDefsAsMap`: arg name → argument definition of the local
parent field. -/
def getFieldArgDefsAsMap (fieldDef : FieldDefinition) :
    List (String × ArgumentDefinition) :=
  fieldDef.arguments.foldl (fun m v => setAssoc m v.aname v) []

/-- `getGivenQueryArgsAsMap`: for a root (`Query`/`Mutation`) parent type,
build `arg name → *ast.ArgumentDefinition` (a nil pointer — `none` — when the
variable is not declared on the parent field) and `arg name → value`.  For
every other parent type both maps stay empty (the `TODO` branch of the
source). -/
def getGivenQueryArgsAsMap (givenQuery : AstField)
    (parentField : FieldDefinition) (parentType : Definition) :
    List (String × Option ArgumentDefinition) × List (String × String) :=
  if parentType.dname = "Query" ∨ parentType.dname = "Mutation" then
    let parentFieldArgMap := getFieldArgDefsAsMap parentField
    givenQuery.arguments.foldl
      (fun acc arg =>
        let varName := arg.value
        (setAssoc acc.1 arg.aname (lookupAssoc parentFieldArgMap (varName.drop 1)),
         setAssoc acc.2 arg.aname varName))
      ([], [])
  else ([], [])

/-- `arg.Type.Kind == "NON_NULL"`.  (The source reads `Kind` without a nil
check; the introspection contract always supplies a type on an argument, and
a nil type is counted as not required here.) -/
def isNonNullKind : Option GqlType → Bool
  | some t => t.kind == "NON_NULL"
  | none => false

/-- One iteration of the `getRemoteQueryArgsAsMap` loop. -/
def remoteArgStep (acc : List (String × Args) × List String) (arg : Args) :
    List (String × Args) × List String :=
  (setAssoc acc.1 arg.aname arg,
   if isNonNullKind arg.type then acc.2 ++ [arg.aname] else acc.2)

/-- `getRemoteQueryArgsAsMap`: arg name → introspected argument definition,
plus the list of names of arguments whose type's top-level `Kind` is
`NON_NULL`, in argument order.  (The default value of an argument is never
consulted.) -/
def getRemoteQueryArgsAsMap (remoteQuery : GqlField) :
    List (String × Args) × List String :=
  remoteQuery.args.foldl remoteArgStep ([], [])

/-- The `givenQryArgVals[givenArgName]` read inside the error messages: a
missing key reads as the zero value `""`. -/
def valOf (vals : List (String × String)) (k : String) : String :=
  (lookupAssoc vals k).getD ""

/-- The first loop of the argument stage: every given argument must exist on
the remote field, resolve to a declared variable, and match the remote
argument's canonical type string. -/
def checkGivenArgs (operationType qname : String)
    (givenVals : List (String × String)) (remoteDefs : List (String × Args)) :
    List (String × Option ArgumentDefinition) → Except RemoteError Unit
  | [] => .ok ()
  | (givenArgName, givenArgDef) :: rest =>
    match lookupAssoc remoteDefs givenArgName with
    | none => .error (.argNotPresent operationType qname givenArgName)
    | some remoteArgDef =>
      match givenArgDef with
      | none => .error (.missingVariable operationType qname (valOf givenVals givenArgName))
      | some d =>
        let expectedArgType := strOpt remoteArgDef.type
        let gotArgType := d.type
        if expectedArgType ≠ gotArgType then
          .error (.argTypeMismatch operationType qname (valOf givenVals givenArgName)
            expectedArgType gotArgType)
        else checkGivenArgs operationType qname givenVals remoteDefs rest

/-- The second loop of the argument stage: every `NON_NULL` remote argument
must be supplied by name in the given query. -/
def checkRequiredArgs (operationType qname : String)
    (givenVals : List (String × String)) : List String → Except RemoteError Unit
  | [] => .ok ()
  | remoteArgName :: rest =>
    match lookupAssoc givenVals remoteArgName with
    | some _ => checkRequiredArgs operationType qname givenVals rest
    | none => .error (.requiredArgMissing operationType qname remoteArgName)

/-- The inner loop of the shape-check stage: every expanded remote field must
exist, with the same canonical type string, on the local type. -/
def checkFields (localType : Definition) (typeName : String) :
    List GqlField → Except RemoteError Unit
  | [] => .ok ()
  | field :: rest =>
    match forName localType.fields field.fname with
    | none => .error (.localFieldNotFound field.fname localType.dname)
    | some localField =>
      if localField.type ≠ strOpt field.type then
        .error (.fieldTypeMismatch field.fname (strOpt field.type) localField.type typeName)
      else checkFields localType typeName rest

/-- The outer loop of the shape-check stage over the expanded
`typeName ↦ fields` map. -/
def checkExpandedTypes (schema : Schema) :
    List (String × List GqlField) → Except RemoteError Unit
  | [] => .ok ()
  | (typeName, fields) :: rest =>
    match lookupAssoc schema.types typeName with
    | none => .error (.localTypeNotFound typeName)
    | some localType =>
      match checkFields localType typeName fields with
      | .error e => .error e
      | .ok _ => checkExpandedTypes schema rest

/-- The remote-field lookup loop of `validateRemoteGraphql`: among the
introspected types named `remoteQueryTypename`, in order, the first field
named like the given query.  (The source breaks out of the type loop only
once a field was found, so several same-named root types would be searched in
sequence.) -/
def findRemoteField (types : List Types) (remoteQueryTypename qname : String) :
    Option GqlField :=
  ((types.filter (fun t => t.tname = remoteQueryTypename)).map Types.fields).flatten.find?
    (fun f => f.fname = qname)

/-- The root type name for the operation kind: `queryType` for a query,
`mutationType` for a mutation, no name (the defensive error) otherwise. -/
def remoteQueryTypenameFor (snap : IntrospectedSchema) (operationType : String) :
    Option String :=
  if operationType = "query" then some snap.data.schema.queryType.qname
  else if operationType = "mutation" then some snap.data.schema.mutationType.qname
  else none

/-- `validateRemoteGraphql(metadata)` from the point where the remote
introspection has succeeded (the HTTP fetch is outside the model): the
five-stage checker.  The `SelectionSet[0].(*ast.Field)` access is unguarded
in the source; a selection set that is empty or does not start with a field
is the `panicSelection` crash. -/
def validateRemoteGraphql (scalars : List String)
    (metadata : remoteGraphqlMetadata) (remoteIntrospection : IntrospectedSchema) :
    Except RemoteError Unit :=
  let operationType := metadata.graphqlOpDef.operation
  match remoteQueryTypenameFor remoteIntrospection operationType with
  | none => .error (.unsupportedOperation operationType)
  | some remoteQueryTypename =>
    match metadata.graphqlOpDef.selectionSet with
    | .field givenQuery :: _ =>
      match findRemoteField remoteIntrospection.data.schema.types remoteQueryTypename
          givenQuery.fname with
      | none => .error (.queryNotPresent operationType givenQuery.fname)
      | some introspectedRemoteQuery =>
        let expectedReturnType := strOpt introspectedRemoteQuery.type
        let gotReturnType := metadata.parentField.type
        if expectedReturnType ≠ gotReturnType then
          .error (.returnTypeMismatch operationType givenQuery.fname
            expectedReturnType gotReturnType)
        else
          let given := getGivenQueryArgsAsMap givenQuery metadata.parentField
            metadata.parentType
          let remote := getRemoteQueryArgsAsMap introspectedRemoteQuery
          match checkGivenArgs operationType givenQuery.fname given.2 remote.1 given.1 with
          | .error e => .error e
          | .ok _ =>
            match checkRequiredArgs operationType givenQuery.fname given.2 remote.2 with
            | .error e => .error e
            | .ok _ =>
              let seeds := setAssoc remote.1 returnTypeKey
                ⟨"", introspectedRemoteQuery.type, none⟩
              match expandArgs scalars seeds remoteIntrospection with
              | .error e => .error e
              | .ok expandedRemoteTypes =>
                checkExpandedTypes metadata.schema expandedRemoteTypes
    | _ => .error .panicSelection

/-! ### Concrete fixtures used by witnesses and counterexamples -/

/-- The remote `Post` object type reference. -/
def postType : GqlType := .leaf "OBJECT" "Post"

/-- Remote argument `id: ID!`. -/
def idArg : Args := ⟨"id", some (.node "NON_NULL" "" (.leaf "SCALAR" "ID")), none⟩

/-- Remote argument `token: String!` carrying a default value. -/
def tokenArg : Args :=
  ⟨"token", some (.node "NON_NULL" "" (.leaf "SCALAR" "String")), some "secret"⟩

/-- Remote root field `getPost(id: ID!, token: String! = "secret"): [Post]`. -/
def getPostBoth : GqlField :=
  ⟨"getPost", [idArg, tokenArg], some (.node "LIST" "" postType), false, none⟩

/-- A remote snapshot whose `getPost` both returns `[Post]` (local expects
`Post`) and requires an extra `token: String!`. -/
def bothSnap : IntrospectedSchema :=
  ⟨⟨⟨⟨"Query"⟩, ⟨""⟩, ⟨""⟩, [⟨"OBJECT", "Query", [getPostBoth], []⟩]⟩⟩⟩

/-- Local metadata: `Query.myPost(id: ID!): Post` resolved by
`query { getPost(id: $id) }`, with local type `Post { title: String }`. -/
def postMeta : remoteGraphqlMetadata :=
  ⟨⟨"Query", [⟨"myPost", [⟨"id", "ID!"⟩], "Post"⟩]⟩,
   ⟨"myPost", [⟨"id", "ID!"⟩], "Post"⟩,
   ⟨"query", [.field ⟨"getPost", [⟨"id", "$id"⟩]⟩]⟩,
   ⟨[("Post", ⟨"Post", [⟨"title", [], "String"⟩]⟩)]⟩⟩

/-! ### Claim C1 -/

/-- C1: `validateRemoteGraphql` runs its five checks in the strict order
root-resolution, remote-field lookup, return-type check, argument check
(given-args loop before required-args loop), shape check, and returns the
first error encountered, never aggregating later errors; in particular when
both the return types mismatch and a required remote argument is missing, the
return-type-mismatch error is returned. -/
theorem C1_fail_fast_ordering (scal : List String) (md : remoteGraphqlMetadata)
    (snap : IntrospectedSchema) :
    (remoteQueryTypenameFor snap md.graphqlOpDef.operation = none →
      validateRemoteGraphql scal md snap =
        .error (.unsupportedOperation md.graphqlOpDef.operation)) ∧
    (∀ root f rest,
      remoteQueryTypenameFor snap md.graphqlOpDef.operation = some root →
      md.graphqlOpDef.selectionSet = .field f :: rest →
      findRemoteField snap.data.schema.types root f.fname = none →
      validateRemoteGraphql scal md snap =
        .error (.queryNotPresent md.graphqlOpDef.operation f.fname)) ∧
    (∀ root f rest q,
      remoteQueryTypenameFor snap md.graphqlOpDef.operation = some root →
      md.graphqlOpDef.selectionSet = .field f :: rest →
      findRemoteField snap.data.schema.types root f.fname = some q →
      strOpt q.type ≠ md.parentField.type →
      validateRemoteGraphql scal md snap =
        .error (.returnTypeMismatch md.graphqlOpDef.operation f.fname
          (strOpt q.type) md.parentField.type)) ∧
    (∀ root f rest q a,
      remoteQueryTypenameFor snap md.graphqlOpDef.operation = some root →
      md.graphqlOpDef.selectionSet = .field f :: rest →
      findRemoteField snap.data.schema.types root f.fname = some q →
      a ∈ (getRemoteQueryArgsAsMap q).2 →
      lookupAssoc (getGivenQueryArgsAsMap f md.parentField md.parentType).2 a = none →
      strOpt q.type ≠ md.parentField.type →
      validateRemoteGraphql scal md snap =
        .error (.returnTypeMismatch md.graphqlOpDef.operation f.fname
          (strOpt q.type) md.parentField.type)) ∧
    (∀ root f rest q e,
      remoteQueryTypenameFor snap md.graphqlOpDef.operation = some root →
      md.graphqlOpDef.selectionSet = .field f :: rest →
      findRemoteField snap.data.schema.types root f.fname = some q →
      strOpt q.type = md.parentField.type →
      checkGivenArgs md.graphqlOpDef.operation f.fname
        (getGivenQueryArgsAsMap f md.parentField md.parentType).2
        (getRemoteQueryArgsAsMap q).1
        (getGivenQueryArgsAsMap f md.parentField md.parentType).1 = .error e →
      validateRemoteGraphql scal md snap = .error e) ∧
    (∀ root f rest q,
      remoteQueryTypenameFor snap md.graphqlOpDef.operation = some root →
      md.graphqlOpDef.selectionSet = .field f :: rest →
      findRemoteField snap.data.schema.types root f.fname = some q →
      strOpt q.type = md.parentField.type →
      checkGivenArgs md.graphqlOpDef.operation f.fname
        (getGivenQueryArgsAsMap f md.parentField md.parentType).2
        (getRemoteQueryArgsAsMap q).1
        (getGivenQueryArgsAsMap f md.parentField md.parentType).1 = .ok () →
      checkRequiredArgs md.graphqlOpDef.operation f.fname
        (getGivenQueryArgsAsMap f md.parentField md.parentType).2
        (getRemoteQueryArgsAsMap q).2 = .ok () →
      validateRemoteGraphql scal md snap =
        (match expandArgs scal
            (setAssoc (getRemoteQueryArgsAsMap q).1 returnTypeKey ⟨"", q.type, none⟩)
            snap with
         | .error e => .error e
         | .ok ex => checkExpandedTypes md.schema ex)) := by
  refine ⟨?_, ?_, ?_, ?_, ?_, ?_⟩
  · intro h1
    simp only [validateRemoteGraphql, h1]
  · intro root f rest h1 h2 h3
    simp only [validateRemoteGraphql, h1, h2, h3]
  · intro root f rest q h1 h2 h3 h4
    simp only [validateRemoteGraphql, h1, h2, h3]
    simp [h4]
  · intro root f rest q a h1 h2 h3 _ _ h4
    simp only [validateRemoteGraphql, h1, h2, h3]
    simp [h4]
  · intro root f rest q e h1 h2 h3 h4 h5
    simp only [validateRemoteGraphql, h1, h2, h3]
    simp [h4, h5]
  · intro root f rest q h1 h2 h3 h4 h5 h6
    simp only [validateRemoteGraphql, h1, h2, h3]
    simp [h4, h5, h6]

/-- Witness for C1: with `bothSnap` the return types mismatch (`[Post]` vs
`Post`) **and** the required remote argument `token` is missing, and the
returned error is the return-type mismatch. -/
theorem C1_fail_fast_ordering_witness :
    "token" ∈ (getRemoteQueryArgsAsMap getPostBoth).2 ∧
    lookupAssoc (getGivenQueryArgsAsMap ⟨"getPost", [⟨"id", "$id"⟩]⟩
      postMeta.parentField postMeta.parentType).2 "token" = none ∧
    validateRemoteGraphql (graphqlScalarType []) postMeta bothSnap =
      .error (.returnTypeMismatch "query" "getPost" "[Post]" "Post") :=
  ⟨by decide, by decide,
    (C1_fail_fast_ordering (graphqlScalarType []) postMeta bothSnap).2.2.2.1
      "Query" ⟨"getPost", [⟨"id", "$id"⟩]⟩ [] getPostBoth "token"
      (by decide) (by decide) (by decide) (by decide) (by decide) (by decide)⟩

/-! ### Claim C2 -/

/-- A remote snapshot whose `getPost(id: ID!)` returns `[Post]` while the
local field declares `Post`. -/
def listPostSnap : IntrospectedSchema :=
  ⟨⟨⟨⟨"Query"⟩, ⟨""⟩, ⟨""⟩,
    [⟨"OBJECT", "Query",
      [⟨"getPost", [idArg], some (.node "LIST" "" postType), false, none⟩], []⟩]⟩⟩⟩

/-- Counterexample to C2 as stated: for local return type `Post` and remote
return type `[Post]`, the error's `expected` component is the **remote**
rendering `"[Post]"` and its `got` component is the **local** declaration
`"Post"` — not the other way round, as the claim asserts
(`expected:"Post", got:"[Post]"`). -/
theorem C2_return_type_mismatch_counterexample :
    validateRemoteGraphql (graphqlScalarType []) postMeta listPostSnap =
      .error (.returnTypeMismatch "query" "getPost" "[Post]" "Post") ∧
    validateRemoteGraphql (graphqlScalarType []) postMeta listPostSnap ≠
      .error (.returnTypeMismatch "query" "getPost" "Post" "[Post]") := by
  constructor
  · decide
  · decide

/-- C2 amended: for a local field declared with return type `Post` and a
remote field whose return type renders as `[Post]`, validation fails with a
return-type-mismatch error whose `expected` component is `"[Post]"` (the
remote type) and whose `got` component is `"Post"` (the local
declaration). -/
theorem C2_return_type_mismatch (scal : List String)
    (md : remoteGraphqlMetadata) (snap : IntrospectedSchema)
    (root : String) (f : AstField) (rest : List Selection) (q : GqlField)
    (h1 : remoteQueryTypenameFor snap md.graphqlOpDef.operation = some root)
    (h2 : md.graphqlOpDef.selectionSet = .field f :: rest)
    (h3 : findRemoteField snap.data.schema.types root f.fname = some q)
    (h4 : strOpt q.type = "[Post]")
    (h5 : md.parentField.type = "Post") :
    validateRemoteGraphql scal md snap =
      .error (.returnTypeMismatch md.graphqlOpDef.operation f.fname
        "[Post]" "Post") := by
  simp only [validateRemoteGraphql, h1, h2, h3]
  rw [h4, h5]
  simp

/-- Witness for the amended C2 at the concrete `Post` / `[Post]` input. -/
theorem C2_return_type_mismatch_witness :
    validateRemoteGraphql (graphqlScalarType []) postMeta listPostSnap =
      .error (.returnTypeMismatch "query" "getPost" "[Post]" "Post") :=
  C2_return_type_mismatch (graphqlScalarType []) postMeta listPostSnap
    "Query" ⟨"getPost", [⟨"id", "$id"⟩]⟩ []
    ⟨"getPost", [idArg], some (.node "LIST" "" postType), false, none⟩
    (by decide) (by decide) (by decide) (by decide) (by decide)

/-! ### Claim C4 -/

theorem foldl_remoteArgStep_snd (args : List Args) (m : List (String × Args))
    (r : List String) :
    (args.foldl remoteArgStep (m, r)).2 =
      r ++ (args.filter (fun a => isNonNullKind a.type)).map Args.aname := by
  induction args generalizing m r with
  | nil => simp
  | cons a args ih =>
    show (args.foldl remoteArgStep (remoteArgStep (m, r) a)).2 = _
    by_cases h : isNonNullKind a.type
    · simp [remoteArgStep, h, ih]
    · simp [remoteArgStep, h, ih]

/-- The required-argument list is exactly the names of the `NON_NULL`-kind
arguments, in order — independent of every other component of the argument,
its default value in particular. -/
theorem getRemoteQueryArgsAsMap_snd (q : GqlField) :
    (getRemoteQueryArgsAsMap q).2 =
      (q.args.filter (fun a => isNonNullKind a.type)).map Args.aname := by
  simp [getRemoteQueryArgsAsMap, foldl_remoteArgStep_snd]

theorem checkRequiredArgs_first_missing (op qn : String)
    (vals : List (String × String)) (pre : List String) (a : String)
    (post : List String)
    (hpre : ∀ b ∈ pre, (lookupAssoc vals b).isSome = true)
    (ha : lookupAssoc vals a = none) :
    checkRequiredArgs op qn vals (pre ++ a :: post) =
      .error (.requiredArgMissing op qn a) := by
  induction pre with
  | nil => simp [checkRequiredArgs, ha]
  | cons b pre ih =>
    have hb := hpre b (by simp)
    obtain ⟨v, hv⟩ := Option.isSome_iff_exists.mp hb
    show checkRequiredArgs op qn vals (b :: (pre ++ a :: post)) = _
    rw [checkRequiredArgs, hv]
    exact ih (fun c hc => hpre c (by simp [hc]))

/-- The required-argument stage of `validateRemoteGraphql`: once the earlier
stages pass and `a` is the first `NON_NULL` remote argument not supplied by
name, validation fails with the required-argument-missing error for `a`. -/
theorem validate_requiredArgMissing (scal : List String)
    (md : remoteGraphqlMetadata)
    (snap : IntrospectedSchema) (root : String) (f : AstField)
    (rest : List Selection) (q : GqlField) (pre : List String) (a : String)
    (post : List String)
    (h1 : remoteQueryTypenameFor snap md.graphqlOpDef.operation = some root)
    (h2 : md.graphqlOpDef.selectionSet = .field f :: rest)
    (h3 : findRemoteField snap.data.schema.types root f.fname = some q)
    (h4 : strOpt q.type = md.parentField.type)
    (h5 : checkGivenArgs md.graphqlOpDef.operation f.fname
      (getGivenQueryArgsAsMap f md.parentField md.parentType).2
      (getRemoteQueryArgsAsMap q).1
      (getGivenQueryArgsAsMap f md.parentField md.parentType).1 = .ok ())
    (h6 : (getRemoteQueryArgsAsMap q).2 = pre ++ a :: post)
    (h7 : ∀ b ∈ pre,
      ((lookupAssoc (getGivenQueryArgsAsMap f md.parentField md.parentType).2 b).isSome
        = true))
    (h8 : lookupAssoc (getGivenQueryArgsAsMap f md.parentField md.parentType).2 a
      = none) :
    validateRemoteGraphql scal md snap =
      .error (.requiredArgMissing md.graphqlOpDef.operation f.fname a) := by
  simp only [validateRemoteGraphql, h1, h2, h3]
  rw [h4]
  simp only [ne_eq, not_true_eq_false, if_false, h5]
  rw [h6, checkRequiredArgs_first_missing _ _ _ pre a post h7 h8]

/-- C4: every remote argument whose type has a top-level `NON_NULL` wrapper
and is not supplied by name in the local selection produces the
required-argument-missing error for that name (the first such, in remote
argument order), and the required-argument list is computed without ever
consulting default values, so a default on the remote argument does not
relax the requirement. -/
theorem C4_required_args (scal : List String) (md : remoteGraphqlMetadata)
    (snap : IntrospectedSchema) (root : String) (f : AstField)
    (rest : List Selection) (q : GqlField) (pre : List String) (a : String)
    (post : List String)
    (h1 : remoteQueryTypenameFor snap md.graphqlOpDef.operation = some root)
    (h2 : md.graphqlOpDef.selectionSet = .field f :: rest)
    (h3 : findRemoteField snap.data.schema.types root f.fname = some q)
    (h4 : strOpt q.type = md.parentField.type)
    (h5 : checkGivenArgs md.graphqlOpDef.operation f.fname
      (getGivenQueryArgsAsMap f md.parentField md.parentType).2
      (getRemoteQueryArgsAsMap q).1
      (getGivenQueryArgsAsMap f md.parentField md.parentType).1 = .ok ())
    (h6 : (getRemoteQueryArgsAsMap q).2 = pre ++ a :: post)
    (h7 : ∀ b ∈ pre,
      ((lookupAssoc (getGivenQueryArgsAsMap f md.parentField md.parentType).2 b).isSome
        = true))
    (h8 : lookupAssoc (getGivenQueryArgsAsMap f md.parentField md.parentType).2 a
      = none) :
    validateRemoteGraphql scal md snap =
      .error (.requiredArgMissing md.graphqlOpDef.operation f.fname a) ∧
    (∀ (rq : GqlField) (d : Option String),
      (getRemoteQueryArgsAsMap
        ⟨rq.fname, rq.args.map (fun x => ⟨x.aname, x.type, d⟩), rq.type,
          rq.isDeprecated, rq.deprecationReason⟩).2 =
      (getRemoteQueryArgsAsMap rq).2) := by
  constructor
  · exact validate_requiredArgMissing scal md snap root f rest q pre a post
      h1 h2 h3 h4 h5 h6 h7 h8
  · intro rq d
    rw [getRemoteQueryArgsAsMap_snd, getRemoteQueryArgsAsMap_snd]
    show ((rq.args.map (fun x => ⟨x.aname, x.type, d⟩)).filter
      (fun a => isNonNullKind a.type)).map Args.aname = _
    rw [List.filter_map, List.map_map]
    rfl

/-- Witness for C4: the remote `getPost(id: ID!, token: String! = "secret")`
against a local selection supplying only `id` fails with
`required arg token is missing`, although `token` carries a default value. -/
theorem C4_required_args_witness :
    tokenArg.defaultValue = some "secret" ∧
    validateRemoteGraphql (graphqlScalarType []) postMeta
      (⟨⟨⟨⟨"Query"⟩, ⟨""⟩, ⟨""⟩,
        [⟨"OBJECT", "Query",
          [⟨"getPost", [idArg, tokenArg], some postType, false, none⟩], []⟩]⟩⟩⟩) =
      .error (.requiredArgMissing "query" "getPost" "token") :=
  ⟨by decide,
    (C4_required_args (graphqlScalarType []) postMeta
      (⟨⟨⟨⟨"Query"⟩, ⟨""⟩, ⟨""⟩,
        [⟨"OBJECT", "Query",
          [⟨"getPost", [idArg, tokenArg], some postType, false, none⟩], []⟩]⟩⟩⟩)
      "Query" ⟨"getPost", [⟨"id", "$id"⟩]⟩ []
      ⟨"getPost", [idArg, tokenArg], some postType, false, none⟩
      ["id"] "token" []
      (by decide) (by decide) (by decide) (by decide) (by decide) (by decide)
      (by decide) (by decide)).1⟩

/-! ### Claim C8 -/

/-- C8: when the local parent type is neither `Query` nor `Mutation`, the
given-argument maps are built empty regardless of the arguments the local
selection supplies (the `TODO` branch), so the given-args loop passes
vacuously, and the first remote argument with a top-level `NON_NULL` wrapper
fails as missing even when the local selection supplies an argument of that
name. -/
theorem C8_non_root_parent (scal : List String) (md : remoteGraphqlMetadata)
    (snap : IntrospectedSchema) (root : String) (f : AstField)
    (rest : List Selection) (q : GqlField) (a : String) (post : List String)
    (hp1 : md.parentType.dname ≠ "Query")
    (hp2 : md.parentType.dname ≠ "Mutation")
    (h1 : remoteQueryTypenameFor snap md.graphqlOpDef.operation = some root)
    (h2 : md.graphqlOpDef.selectionSet = .field f :: rest)
    (h3 : findRemoteField snap.data.schema.types root f.fname = some q)
    (h4 : strOpt q.type = md.parentField.type)
    (h6 : (getRemoteQueryArgsAsMap q).2 = a :: post) :
    getGivenQueryArgsAsMap f md.parentField md.parentType = ([], []) ∧
    checkGivenArgs md.graphqlOpDef.operation f.fname [] (getRemoteQueryArgsAsMap q).1 []
      = .ok () ∧
    validateRemoteGraphql scal md snap =
      .error (.requiredArgMissing md.graphqlOpDef.operation f.fname a) := by
  have hempty : getGivenQueryArgsAsMap f md.parentField md.parentType = ([], []) := by
    rw [getGivenQueryArgsAsMap, if_neg]
    simp [hp1, hp2]
  refine ⟨hempty, by rfl, ?_⟩
  exact validate_requiredArgMissing scal md snap root f rest q [] a post h1 h2 h3 h4
    (by rw [hempty]; rfl) h6 (by simp) (by rw [hempty]; rfl)

/-- Witness for C8: parent type `Author` (non-root); the local selection
supplies `id`, yet the remote `NON_NULL` argument `id` is reported
missing. -/
theorem C8_non_root_parent_witness :
    validateRemoteGraphql (graphqlScalarType [])
      ⟨⟨"Author", [⟨"myPost", [⟨"id", "ID!"⟩], "Post"⟩]⟩,
       ⟨"myPost", [⟨"id", "ID!"⟩], "Post"⟩,
       ⟨"query", [.field ⟨"getPost", [⟨"id", "$id"⟩]⟩]⟩,
       ⟨[]⟩⟩
      (⟨⟨⟨⟨"Query"⟩, ⟨""⟩, ⟨""⟩,
        [⟨"OBJECT", "Query",
          [⟨"getPost", [idArg], some postType, false, none⟩], []⟩]⟩⟩⟩) =
      .error (.requiredArgMissing "query" "getPost" "id") :=
  (C8_non_root_parent (graphqlScalarType [])
      ⟨⟨"Author", [⟨"myPost", [⟨"id", "ID!"⟩], "Post"⟩]⟩,
       ⟨"myPost", [⟨"id", "ID!"⟩], "Post"⟩,
       ⟨"query", [.field ⟨"getPost", [⟨"id", "$id"⟩]⟩]⟩,
       ⟨[]⟩⟩
      (⟨⟨⟨⟨"Query"⟩, ⟨""⟩, ⟨""⟩,
        [⟨"OBJECT", "Query",
          [⟨"getPost", [idArg], some postType, false, none⟩], []⟩]⟩⟩⟩)
      "Query" ⟨"getPost", [⟨"id", "$id"⟩]⟩ []
      ⟨"getPost", [idArg], some postType, false, none⟩ "id" []
      (by decide) (by decide) (by decide) (by decide) (by decide)
      (by decide) (by decide)).2.2

/-! ### Claim C9 -/

/-- Counterexample to C9 as stated: an input that violates the
selection-set precondition (its selection set is empty) but whose operation
kind is `"subscription"` does **not** reach the unguarded
`SelectionSet[0].(*ast.Field)` access — the switch on the operation kind runs
first and returns the unsupported-operation error, not a crash. -/
theorem C9_selection_precondition_counterexample :
    validateRemoteGraphql (graphqlScalarType [])
      ⟨⟨"Query", []⟩, ⟨"myPost", [], "Post"⟩, ⟨"subscription", []⟩, ⟨[]⟩⟩
      listPostSnap =
      .error (.unsupportedOperation "subscription") ∧
    validateRemoteGraphql (graphqlScalarType [])
      ⟨⟨"Query", []⟩, ⟨"myPost", [], "Post"⟩, ⟨"subscription", []⟩, ⟨[]⟩⟩
      listPostSnap ≠ .error .panicSelection := by
  constructor
  · decide
  · decide

/-- C9 amended: `validateRemoteGraphql` accesses the operation's first
top-level selection unguarded and asserts it is a field, so it is
well-defined only under the precondition that the selection set is non-empty
and starts with a field selection; an input with operation kind `query` or
`mutation` that violates that precondition crashes (the modelled
`panicSelection`) rather than returning an error, while an input of any
other operation kind returns the unsupported-operation error before the
access is reached. -/
theorem C9_selection_precondition (scal : List String)
    (md : remoteGraphqlMetadata) (snap : IntrospectedSchema)
    (hop : md.graphqlOpDef.operation = "query" ∨
      md.graphqlOpDef.operation = "mutation")
    (hsel : ∀ f rest, md.graphqlOpDef.selectionSet ≠ .field f :: rest) :
    validateRemoteGraphql scal md snap = .error .panicSelection := by
  have hsome : ∃ root,
      remoteQueryTypenameFor snap md.graphqlOpDef.operation = some root := by
    rcases hop with h | h
    · exact ⟨snap.data.schema.queryType.qname, by rw [h]; rfl⟩
    · exact ⟨snap.data.schema.mutationType.qname, by rw [h]; rfl⟩
  obtain ⟨root, hroot⟩ := hsome
  simp only [validateRemoteGraphql, hroot]

/-- Witness for the amended C9: a `query` operation with an empty selection
set reaches the unguarded access and crashes. -/
theorem C9_selection_precondition_witness :
    validateRemoteGraphql (graphqlScalarType [])
      ⟨⟨"Query", []⟩, ⟨"myPost", [], "Post"⟩, ⟨"query", []⟩, ⟨[]⟩⟩
      listPostSnap = .error .panicSelection :=
  C9_selection_precondition (graphqlScalarType [])
    ⟨⟨"Query", []⟩, ⟨"myPost", [], "Post"⟩, ⟨"query", []⟩, ⟨[]⟩⟩
    listPostSnap (Or.inl rfl) (by intro f rest h; cases h)

/-! ### Claims about the expander (C3, C5, C6) -/

/-- A single-seed `expandArgs` run reduces to one `expandArgRecursively`
run from the empty state, once the seed's named type is not a scalar key. -/
theorem expandArgs_single (scal : List String) (k : String) (a : Args)
    (t0 : GqlType) (nm : String) (snap : IntrospectedSchema)
    (h1 : a.type = some t0) (h2 : t0.namedType? = some nm)
    (h3 : scal.contains nm = false) :
    expandArgs scal [(k, a)] snap =
      (match expandArgRecursively scal nm snap ⟨[], []⟩ with
       | .error e => .error e
       | .ok st => .ok st.typesToFields) := by
  simp only [expandArgs, expandSeeds, h1, h2, h3]
  rcases hrec : expandArgRecursively scal nm snap ⟨[], []⟩ with e | st
  · simp
  · simp [expandSeeds]

/-- C6: for every seed name that is not already visited and is not the name
of any type definition in the snapshot, `expandArgRecursively` returns the
type-not-found error naming that type (and terminates — the model is a total
function); likewise `expandArgs` on a single seed whose underlying named
type is not a scalar key and not defined in the snapshot. -/
theorem C6_type_not_found :
    (∀ (scal : List String) (snap : IntrospectedSchema)
        (st : expandArgParams) (n : String),
      n ∉ st.expandedTypes →
      (∀ t ∈ snap.data.schema.types, t.tname ≠ n) →
      expandArgRecursively scal n snap st = .error (.typeNotFound n)) ∧
    (∀ (scal : List String) (k : String) (a : Args) (t0 : GqlType)
        (nm : String) (snap : IntrospectedSchema),
      a.type = some t0 → t0.namedType? = some nm →
      scal.contains nm = false →
      (∀ t ∈ snap.data.schema.types, t.tname ≠ nm) →
      expandArgs scal [(k, a)] snap = .error (.typeNotFound nm)) := by
  have key : ∀ (scal : List String) (snap : IntrospectedSchema)
      (st : expandArgParams) (n : String),
      n ∉ st.expandedTypes →
      (∀ t ∈ snap.data.schema.types, t.tname ≠ n) →
      expandArgRecursively scal n snap st = .error (.typeNotFound n) := by
    intro scal snap st n hn htypes
    rw [expandArgRecursively, expandLoop_cons_notFound _ _ _ _ _ hn htypes]
  refine ⟨key, ?_⟩
  intro scal k a t0 nm snap h1 h2 h3 h4
  rw [expandArgs_single scal k a t0 nm snap h1 h2 h3,
    key scal snap ⟨[], []⟩ nm (by simp) h4]

/-- Witness for C6: a seed named `Missing` against a snapshot defining only
`T` fails with the type-not-found error naming `Missing`. -/
theorem C6_type_not_found_witness :
    expandArgs (graphqlScalarType [])
      [("a", ⟨"a", some (.leaf "OBJECT" "Missing"), none⟩)]
      (⟨⟨⟨⟨"Query"⟩, ⟨""⟩, ⟨""⟩, [⟨"OBJECT", "T", [], []⟩]⟩⟩⟩) =
      .error (.typeNotFound "Missing") :=
  C6_type_not_found.2 (graphqlScalarType []) "a"
    ⟨"a", some (.leaf "OBJECT" "Missing"), none⟩
    (.leaf "OBJECT" "Missing") "Missing"
    (⟨⟨⟨⟨"Query"⟩, ⟨""⟩, ⟨""⟩, [⟨"OBJECT", "T", [], []⟩]⟩⟩⟩)
    (by decide) (by decide) (by decide) (by decide)

/-- The field `parent: Node` of the self-referential type `Node`. -/
def nodeField : GqlField := ⟨"parent", [], some (.leaf "OBJECT" "Node"), false, none⟩

/-- A snapshot containing the self-referential `type Node { parent: Node }`. -/
def nodeSnap : IntrospectedSchema :=
  ⟨⟨⟨⟨"Query"⟩, ⟨""⟩, ⟨""⟩, [⟨"OBJECT", "Node", [nodeField], []⟩]⟩⟩⟩

/-- C5: expansion marks a type name visited **before** any recursive call on
its fields, a name already in the visited set returns immediately without
error, the visited set stays duplicate free (each type is expanded at most
once), and on the self-referential `Node` snapshot the expansion terminates
with `Node` visited exactly once.  (Termination for every snapshot is
intrinsic to the model: the expansion is a total function whose recursion is
justified exactly by the growth of the visited set.) -/
theorem C5_self_referential_expansion :
    (∀ (scal : List String) (snap : IntrospectedSchema)
        (st : expandArgParams) (n : String),
      n ∈ st.expandedTypes →
      expandArgRecursively scal n snap st = .ok st) ∧
    (∀ (scal : List String) (snap : IntrospectedSchema)
        (st : expandArgParams) (n : String) (children : List String),
      n ∉ st.expandedTypes →
      (∃ t ∈ snap.data.schema.types, t.tname = n) →
      childrenMany scal (snap.data.schema.types.filter (fun t => t.tname = n)) =
        .ok children →
      expandArgRecursively scal n snap st =
        expandLoop snap scal children
          (recordTypes (snap.data.schema.types.filter (fun t => t.tname = n))
            { st with expandedTypes := n :: st.expandedTypes }) ∧
      (recordTypes (snap.data.schema.types.filter (fun t => t.tname = n))
        { st with expandedTypes := n :: st.expandedTypes }).expandedTypes =
        n :: st.expandedTypes) ∧
    (∀ (scal : List String) (snap : IntrospectedSchema) (stack : List String)
        (st st' : expandArgParams),
      st.expandedTypes.Nodup →
      expandLoop snap scal stack st = .ok st' →
      st'.expandedTypes.Nodup) ∧
    (expandLoop nodeSnap (graphqlScalarType []) ["Node"] ⟨[], []⟩ =
      .ok ⟨["Node"], [("Node", [nodeField])]⟩ ∧
     expandArgs (graphqlScalarType [])
       [(returnTypeKey, ⟨"", some (.leaf "OBJECT" "Node"), none⟩)] nodeSnap =
       .ok [("Node", [nodeField])] ∧
     List.count "Node" ["Node"] = 1) := by
  have hnodeLoop : expandLoop nodeSnap (graphqlScalarType []) ["Node"] ⟨[], []⟩ =
      .ok ⟨["Node"], [("Node", [nodeField])]⟩ := by
    rw [expandLoop_cons_step nodeSnap (graphqlScalarType []) "Node" [] ⟨[], []⟩
      ["Node"] (by simp) (by decide) (by decide)]
    show expandLoop nodeSnap (graphqlScalarType []) ["Node"]
      ⟨["Node"], [("Node", [nodeField])]⟩ = _
    rw [expandLoop_cons_mem _ _ _ _ _ (by simp), expandLoop_nil]
  refine ⟨?_, ?_, ?_, hnodeLoop, ?_, by simp⟩
  · intro scal snap st n hn
    rw [expandArgRecursively, expandLoop_cons_mem _ _ _ _ _ hn, expandLoop_nil]
  · intro scal snap st n children hn hex hch
    refine ⟨?_, recordTypes_expandedTypes _ _⟩
    rw [expandArgRecursively, expandLoop_cons_step _ _ _ _ _ children hn hex hch]
    simp
  · intro scal snap stack st st' hnd hok
    exact expandLoop_nodup snap scal stack st hnd st' hok
  · rw [expandArgs_single (graphqlScalarType []) returnTypeKey
      ⟨"", some (.leaf "OBJECT" "Node"), none⟩ (.leaf "OBJECT" "Node") "Node"
      nodeSnap rfl (by decide) (by decide)]
    rw [expandArgRecursively, hnodeLoop]

/-- Witness for C5 at concrete inputs: the already-visited guard and the
mark-before-recursing equation, instantiated on the `Node` snapshot. -/
theorem C5_self_referential_expansion_witness :
    expandArgRecursively (graphqlScalarType []) "Node" nodeSnap
      ⟨["Node"], []⟩ = .ok ⟨["Node"], []⟩ ∧
    (expandArgRecursively (graphqlScalarType []) "Node" nodeSnap ⟨[], []⟩ =
      expandLoop nodeSnap (graphqlScalarType []) ["Node"]
        (recordTypes (nodeSnap.data.schema.types.filter (fun t => t.tname = "Node"))
          ⟨["Node"], []⟩) ∧
     (recordTypes (nodeSnap.data.schema.types.filter (fun t => t.tname = "Node"))
       ⟨["Node"], []⟩).expandedTypes = ["Node"]) :=
  ⟨C5_self_referential_expansion.1 (graphqlScalarType []) nodeSnap
      ⟨["Node"], []⟩ "Node" (by simp),
   C5_self_referential_expansion.2.1 (graphqlScalarType []) nodeSnap
      ⟨[], []⟩ "Node" ["Node"] (by simp) (by decide) (by decide)⟩

/-- The single-seed argument pointing at the remote type `T`. -/
def seedT : Args := ⟨"a", some (.leaf "OBJECT" "T"), none⟩

/-- A snapshot containing exactly one type definition. -/
def oneTypeSnap (t : Types) : IntrospectedSchema :=
  ⟨⟨⟨⟨"Query"⟩, ⟨""⟩, ⟨""⟩, [t]⟩⟩⟩

/-- Counterexample to C3 as stated: `Int` is a builtin scalar key, yet the
field `x: Int!` (underlying named type `Int`, wrapped in `NON_NULL`) **is**
recursed into, because the source guards the `Fields` loop with the
**top-level** `field.Type.Name` (here `""`), not the underlying named type.
The claim predicts the recursion terminates at `x`; the code instead expands
`Int`, which the snapshot does not define, and fails. -/
theorem C3_scalar_guard_counterexample :
    (graphqlScalarType []).contains "Int" = true ∧
    expandArgs (graphqlScalarType []) [("a", seedT)]
      (oneTypeSnap ⟨"OBJECT", "T",
        [⟨"x", [], some (.node "NON_NULL" "" (.leaf "SCALAR" "Int")), false, none⟩],
        []⟩) =
      .error (.typeNotFound "Int") := by
  constructor
  · decide
  · rw [expandArgs_single (graphqlScalarType []) "a" seedT (.leaf "OBJECT" "T")
      "T" _ rfl (by decide) (by decide)]
    rw [expandArgRecursively,
      expandLoop_cons_step _ _ "T" [] ⟨[], []⟩ ["Int"] (by simp) (by decide)
        (by decide)]
    rw [show ((["Int"] ++ [] : List String)) = ["Int"] from rfl]
    rw [expandLoop_cons_notFound _ _ "Int" [] _ (by decide) (by decide)]

/-- C3 amended: during expansion a *field* is recursed into exactly when its
type's **top-level** `Name` is not a scalar key (so any wrapped field — even
one whose underlying named type is a scalar — is recursed into, via its
underlying named type), while an *input-field* is recursed into exactly when
its **underlying** named type is not a scalar key; the scalar key set is the
builtin names plus the custom scalar names known to the local schema. -/
theorem C3_scalar_guard (scal : List String) (ft : GqlType) (m : String)
    (hT : scal.contains "T" = false)
    (hm : ft.namedType? = some m)
    (hmT : m ≠ "T") :
    (scal.contains ft.name = true →
      expandArgs scal [("a", seedT)]
        (oneTypeSnap ⟨"OBJECT", "T", [⟨"x", [], some ft, false, none⟩], []⟩) =
        .ok [("T", [⟨"x", [], some ft, false, none⟩])]) ∧
    (scal.contains ft.name = false →
      expandArgs scal [("a", seedT)]
        (oneTypeSnap ⟨"OBJECT", "T", [⟨"x", [], some ft, false, none⟩], []⟩) =
        .error (.typeNotFound m)) ∧
    (scal.contains m = true →
      expandArgs scal [("a", seedT)]
        (oneTypeSnap ⟨"OBJECT", "T", [], [⟨"x", [], some ft, false, none⟩]⟩) =
        .ok [("T", [⟨"x", [], some ft, false, none⟩])]) ∧
    (scal.contains m = false →
      expandArgs scal [("a", seedT)]
        (oneTypeSnap ⟨"OBJECT", "T", [], [⟨"x", [], some ft, false, none⟩]⟩) =
        .error (.typeNotFound m)) := by
  have hseed : seedT.type = some (.leaf "OBJECT" "T") := rfl
  have hseedName : GqlType.namedType? (.leaf "OBJECT" "T") = some "T" := by decide
  refine ⟨?_, ?_, ?_, ?_⟩
  · intro hc
    have hc' : ft.name ∈ scal := by simpa using hc
    rw [expandArgs_single scal "a" seedT _ "T" _ hseed hseedName hT]
    rw [expandArgRecursively,
      expandLoop_cons_step _ _ "T" [] ⟨[], []⟩ [] (by simp) (by simp [oneTypeSnap])
        (by simp [childrenMany, typeChildren, fieldChildren, inputChildren,
          oneTypeSnap, hc'])]
    rw [show (([] ++ [] : List String)) = [] from rfl, expandLoop_nil]
    rfl
  · intro hc
    have hc' : ft.name ∉ scal := by simpa using hc
    rw [expandArgs_single scal "a" seedT _ "T" _ hseed hseedName hT]
    rw [expandArgRecursively,
      expandLoop_cons_step _ _ "T" [] ⟨[], []⟩ [m] (by simp) (by simp [oneTypeSnap])
        (by simp [childrenMany, typeChildren, fieldChildren, inputChildren,
          oneTypeSnap, hc', hm])]
    rw [show (([m] ++ [] : List String)) = [m] from rfl]
    rw [expandLoop_cons_notFound _ _ m [] _
      (by rw [recordTypes_expandedTypes]; simp [hmT])
      (by simp [oneTypeSnap]; exact fun e => hmT e.symm)]
  · intro hc
    have hc' : m ∈ scal := by simpa using hc
    rw [expandArgs_single scal "a" seedT _ "T" _ hseed hseedName hT]
    rw [expandArgRecursively,
      expandLoop_cons_step _ _ "T" [] ⟨[], []⟩ [] (by simp) (by simp [oneTypeSnap])
        (by simp [childrenMany, typeChildren, fieldChildren, inputChildren,
          oneTypeSnap, hm, hc'])]
    rw [show (([] ++ [] : List String)) = [] from rfl, expandLoop_nil]
    rfl
  · intro hc
    have hc' : m ∉ scal := by simpa using hc
    rw [expandArgs_single scal "a" seedT _ "T" _ hseed hseedName hT]
    rw [expandArgRecursively,
      expandLoop_cons_step _ _ "T" [] ⟨[], []⟩ [m] (by simp) (by simp [oneTypeSnap])
        (by simp [childrenMany, typeChildren, fieldChildren, inputChildren,
          oneTypeSnap, hm, hc'])]
    rw [show (([m] ++ [] : List String)) = [m] from rfl]
    rw [expandLoop_cons_notFound _ _ m [] _
      (by rw [recordTypes_expandedTypes]; simp [hmT])
      (by simp [oneTypeSnap]; exact fun e => hmT e.symm)]

/-- Witness for the amended C3 at `ft = Int!` (wrapped builtin scalar):
the field variant recurses and fails, the input-field variant stops at the
scalar and succeeds. -/
theorem C3_scalar_guard_witness :
    expandArgs (graphqlScalarType []) [("a", seedT)]
      (oneTypeSnap ⟨"OBJECT", "T",
        [⟨"x", [], some (.node "NON_NULL" "" (.leaf "SCALAR" "Int")), false, none⟩],
        []⟩) = .error (.typeNotFound "Int") ∧
    expandArgs (graphqlScalarType []) [("a", seedT)]
      (oneTypeSnap ⟨"OBJECT", "T", [],
        [⟨"x", [], some (.node "NON_NULL" "" (.leaf "SCALAR" "Int")), false, none⟩]⟩) =
      .ok [("T", [⟨"x", [], some (.node "NON_NULL" "" (.leaf "SCALAR" "Int")), false,
        none⟩])] :=
  ⟨(C3_scalar_guard (graphqlScalarType [])
      (.node "NON_NULL" "" (.leaf "SCALAR" "Int")) "Int"
      (by decide) (by decide) (by decide)).2.1 (by decide),
   (C3_scalar_guard (graphqlScalarType [])
      (.node "NON_NULL" "" (.leaf "SCALAR" "Int")) "Int"
      (by decide) (by decide) (by decide)).2.2.1 (by decide)⟩

end Dgraph
